import Mathlib

/-!
Shallow embedding of the meter-communication layer of `pymeterreader`
(`src/pymeterreader/device_lib/`): the shared data model (`common.py`),
the text-protocol reader (`meter_plain.py`), the framed SML reader
(`meter_sml.py`) and serial-port discovery (`serial_reader.py`).

Python values that can be a string, an int or a float are embedded as
`PyVal`; Python floats are modelled as exact rationals (every numeric
literal the readers handle is a short decimal).  Python `None` is
`Option.none`.  Exceptions that can escape a function are modelled with
`Except PyErr`; calls to the `logging` module are collected in a
`List LogEvent` result component.  Serial I/O is external: functions are
parameterised by the bytes a read returned (as `List Nat`) or by the
already-decoded response line, and the external TLV decoder
(`SmlBase.parse_frame`) is a function parameter.
-/

namespace PyMeterReader

/-- Embeds the Python value union `str | int | float` used for channel
values and meter ids (floats as exact decimal rationals). -/
inductive PyVal where
  | s (v : String)
  | i (v : Int)
  | f (v : Rat)
deriving DecidableEq, Repr

/-- Embeds `common.Channel`: `channel_name`, `value`, optional `unit`
(`None` when the keyword argument is omitted). -/
structure Channel where
  channel_name : String
  value : PyVal
  unit : Option String := none
deriving DecidableEq, Repr

/-- Embeds `common.Sample`: `time` (epoch seconds as a rational),
`meter_id` (`None` until parsing establishes it; the SML parser can
assign any decoded value to it, hence `Option PyVal`), `channels`. -/
structure Sample where
  time : Rat
  meter_id : Option PyVal := none
  channels : List Channel := []
deriving DecidableEq, Repr

/-- Embeds `common.Device`: `identifier` (receives `sample.meter_id`,
hence `Option PyVal`), `tty`, `protocol`, `channels`. -/
structure Device where
  identifier : Option PyVal
  tty : String
  protocol : String
  channels : List Channel
deriving DecidableEq, Repr

/-- Levels of the Python `logging` calls appearing in the sources. -/
inductive LogLevel where
  | debug
  | info
  | warning
  | error
deriving DecidableEq, Repr

/-- One `logging` call: its level and an abbreviation of its message. -/
structure LogEvent where
  level : LogLevel
  msg : String
deriving DecidableEq, Repr

/-- Python exceptions that can escape the embedded functions:
`TypeError` (iterating over `None` in `strip`) and `ValueError`
(`float()` on a malformed literal). -/
inductive PyErr where
  | typeError
  | valueError
deriving DecidableEq, Repr

/-- Embeds `common.legal_characters = digits + ascii_letters +
punctuation` (Python `string` module constants). -/
def legal_characters : List Char :=
  ("0123456789"
    ++ "abcdefghijklmnopqrstuvwxyzABCDEFGHIJKLMNOPQRSTUVWXYZ"
    ++ "!\"#$%&\x27()*+,-./:;<=>?@[\\]^_\x60\x7b|\x7d~").data

/-- Characters removed by Python `str.strip()` with no argument. -/
def isPyWhitespace (c : Char) : Bool :=
  c = ' ' || c = '\t' || c = '\n' || c = '\r' || c = '\x0b' || c = '\x0c'

/-- Embeds Python `str.strip()` (no argument): drop leading and trailing
whitespace. -/
def pyStripWs (cs : List Char) : List Char :=
  ((cs.dropWhile isPyWhitespace).reverse.dropWhile isPyWhitespace).reverse

/-- Embeds `common.strip`:
`''.join([char for char in string if char in legal_characters]).strip().upper()`.
`str.upper()` on the (ASCII) legal characters is `Char.toUpper`. -/
def strip (string : String) : String :=
  ⟨(pyStripWs (string.data.filter (fun c => legal_characters.contains c))).map Char.toUpper⟩

/-- Embeds the Python `in` operator on strings at the list-of-characters
level: contiguous-substring containment (the empty string is contained
in every string). -/
def pyInList (needle : List Char) : List Char → Bool
  | [] => needle.isEmpty
  | c :: t => needle.isPrefixOf (c :: t) || pyInList needle t

/-- Embeds the Python expression `needle in hay` for strings. -/
def pyIn (needle hay : String) : Bool :=
  pyInList needle.data hay.data

/-- Embeds the identity-matching test the readers run in `poll()`:
`strip(self.meter_id) in strip(sample.meter_id)`
(`meter_sml.py` line 41, `meter_plain.py` line 50). -/
def idMatch (expected observed : String) : Bool :=
  pyIn (strip expected) (strip observed)

/-- Embeds `Sample()` construction with all defaults: `meter_id = None`,
`channels = []`, and `time` bound to the dataclass default `t0`. -/
def newSample (t0 : Rat) : Sample :=
  { time := t0, meter_id := none, channels := [] }

/-- Embeds the Python dataclass field `time: float = time()` of
`common.Sample` (common.py line 26): the default expression is evaluated
ONCE, when the class body is executed at module import, so every
construction `Sample()` receives the same stored value `classDefTime`
and the clock value `now` at construction time is never consulted. -/
def sampleDefault (classDefTime : Rat) (now : Rat) : Sample :=
  newSample classDefTime

/-- Log event of the mismatch warning in both `poll` bodies. -/
def warnMismatchEvent : LogEvent :=
  ⟨.warning, "Meter ID in frame does not match expected ID"⟩

/-- Log event of `error(f'SML parsing failed: ...')`. -/
def smlErrorEvent : LogEvent :=
  ⟨.error, "SML parsing failed"⟩

/-- Log event of `debug(f'Plain response: ...')`. -/
def plainDebugEvent : LogEvent :=
  ⟨.debug, "Plain response"⟩

/-- Log event of `error(f'Parsing failed: ...')`. -/
def plainErrorEvent : LogEvent :=
  ⟨.error, "Parsing failed"⟩

/-- Log event of `info(f'No ... Meter found at {discovered_tty_url}')`. -/
def infoEventAt (url : String) : LogEvent :=
  ⟨.info, "No Meter found at " ++ url⟩

/-- Log event of `error(f'Uncaught Exception while tyring to detect ...')`. -/
def uncaughtEvent : LogEvent :=
  ⟨.error, "Uncaught Exception while trying to detect Meter"⟩

/-- Embeds the identity gate shared by `SmlReader.poll` (meter_sml.py
lines 39-45) and `PlainReader.poll` (meter_plain.py lines 48-54):
`if sample:` (a `Sample` object is always truthy, so this only tests for
`None`), then `if strip(self.meter_id) in strip(sample.meter_id)` —
`strip` iterates over its argument, so a `None` (or non-string)
`meter_id` raises an uncaught `TypeError`; a mismatch logs a warning and
falls through to `return None`. -/
def pollGate (expected : String) (s? : Option Sample) :
    Except PyErr (Option Sample) × List LogEvent :=
  match s? with
  | none => (.ok none, [])
  | some s =>
    match s.meter_id with
    | none => (.error .typeError, [])
    | some (.i _) => (.error .typeError, [])
    | some (.f _) => (.error .typeError, [])
    | some (.s mid) =>
      if idMatch expected mid then
        (.ok (some s), [])
      else
        (.ok none, [warnMismatchEvent])

/-- Composes a fetch result with the identity gate, accumulating logs,
as both `poll` bodies do. -/
def pollFrom (expected : String) (fetched : Option Sample × List LogEvent) :
    Except PyErr (Option Sample) × List LogEvent :=
  let g := pollGate expected fetched.1
  (g.1, fetched.2 ++ g.2)

/-- Character class of the regex atom `[\d.]` (ASCII digits and dot). -/
def isDigitDot (c : Char) : Bool :=
  c.isDigit || c = '.'

/-- Character class of the regex atom `[\w\d.]` (ASCII word characters
and dot). -/
def isWordDot (c : Char) : Bool :=
  c.isAlphanum || c = '_' || c = '.'

/-- Attempts to match the anchored regex
`([\d.]+)\(([\d.]+)\*?([\w\d.]+)?\)` (meter_plain.py line 132) at the
head of `cs`, returning the three captured groups (an unmatched optional
unit group is the empty string, as `re.findall` reports it) and the
remaining input.  The pattern is deterministic here: each `+` class is
immediately followed by a character outside the class, so greedy maximal
munch never needs to backtrack. -/
def tryMatch (cs : List Char) : Option ((String × String × String) × List Char) :=
  let (a, r1) := cs.span isDigitDot
  if a.isEmpty then none
  else
    match r1 with
    | '(' :: r2 =>
      let (b, r3) := r2.span isDigitDot
      if b.isEmpty then none
      else
        match r3 with
        | '*' :: r4 =>
          let (c, r5) := r4.span isWordDot
          (match r5 with
           | ')' :: r6 => some ((⟨a⟩, ⟨b⟩, ⟨c⟩), r6)
           | _ => none)
        | _ =>
          let (c, r5) := r3.span isWordDot
          (match r5 with
           | ')' :: r6 => some ((⟨a⟩, ⟨b⟩, ⟨c⟩), r6)
           | _ => none)
    | _ => none

/-- Scanning loop of `re.findall`: try a match at the current position;
on success continue after the match, on failure advance one character.
`fuel` bounds the recursion (every step consumes at least one input
character). -/
def scanGroups : Nat → List Char → List (String × String × String)
  | 0, _ => []
  | _, [] => []
  | fuel + 1, c :: rest =>
    match tryMatch (c :: rest) with
    | some (g, rest2) => g :: scanGroups fuel rest2
    | none => scanGroups fuel rest

/-- Embeds `re.findall(r"([\d.]+)\(([\d.]+)\*?([\w\d.]+)?\)", response)`
(meter_plain.py line 132). -/
def findallPlain (response : String) : List (String × String × String) :=
  scanGroups response.data.length response.data

/-- Numeric value of a digit list (most significant first). -/
def digitsVal (ds : List Char) : Nat :=
  ds.foldl (fun n c => 10 * n + (c.toNat - 48)) 0

/-- Powers of ten. -/
def pow10 : Nat → Nat
  | 0 => 1
  | n + 1 => 10 * pow10 n

/-- Embeds Python `float(value)` on strings drawn from `[\d.]+`: it
succeeds iff the string has at most one dot and at least one digit, and
then denotes the exact decimal value; otherwise `float` raises
`ValueError`. -/
def pyFloat? (s : String) : Option Rat :=
  let cs := s.data
  if cs.all isDigitDot ∧ cs.countP (fun c => c == '.') ≤ 1 ∧ cs.any Char.isDigit then
    let intp := cs.takeWhile (fun c => c ≠ '.')
    let frac := (cs.dropWhile (fun c => c ≠ '.')).drop 1
    some (mkRat (digitsVal (intp ++ frac)) (pow10 frac.length))
  else
    none

/-- Loop body of `PlainReader.__parse` (meter_plain.py lines 131-139)
over the groups `re.findall` produced: the first group lazily creates
`Sample()` (with the dataclass default time `t0`); a group with empty
unit and code `9.21` overwrites `meter_id`; any other group appends
`Channel(ident, float(value), unit)`, where a malformed `float` literal
raises `ValueError` (uncaught in `__parse`). -/
def plainParseLoop (t0 : Rat) :
    Option Sample → List (String × String × String) → Except PyErr (Option Sample)
  | parsed, [] => .ok parsed
  | parsed, (ident, value, unit) :: rest =>
    let p := parsed.getD (newSample t0)
    if unit = "" ∧ ident = "9.21" then
      plainParseLoop t0 (some { p with meter_id := some (.s value) }) rest
    else
      match pyFloat? value with
      | some q =>
        plainParseLoop t0
          (some { p with channels := p.channels ++ [⟨ident, .f q, some unit⟩] }) rest
      | none => .error .valueError

/-- Embeds `PlainReader.__parse` (meter_plain.py lines 126-139). -/
def plainParse (t0 : Rat) (response : String) : Except PyErr (Option Sample) :=
  plainParseLoop t0 none (findallPlain response)

/-- Embeds `PlainReader.__fetch_sample` (meter_plain.py lines 56-93)
after transport I/O and UTF-8 decoding succeeded, parameterised by the
decoded response line: the response is logged at debug level, then
parsed; `assert isinstance(sample, Sample)` fails when `__parse`
returned `None` (no group matched), which is caught and logged at error
level; a `ValueError` escaping `__parse` is not caught by any of the
`except` clauses and propagates. -/
def plainFetch (t0 : Rat) (response : String) :
    Except PyErr (Option Sample) × List LogEvent :=
  match plainParse t0 response with
  | .error e => (.error e, [plainDebugEvent])
  | .ok none => (.ok none, [plainDebugEvent, plainErrorEvent])
  | .ok (some s) => (.ok (some s), [plainDebugEvent])

/-- Embeds `PlainReader.poll` (meter_plain.py lines 43-54): fetch, then
the identity gate; an exception escaping the fetch (or the gate) is not
caught in `poll`. -/
def plainPoll (expected : String) (t0 : Rat) (response : String) :
    Except PyErr (Option Sample) × List LogEvent :=
  match plainFetch t0 response with
  | (.error e, logs) => (.error e, logs)
  | (.ok s?, logs) =>
    let g := pollGate expected s?
    (g.1, logs ++ g.2)

/-- Embeds `PlainReader._discover` (meter_plain.py lines 123-124): the
body is the single statement `pass`, so the method returns `None` for
every reader configuration and every meter response. -/
def plainDiscover (expected tty_url : String) (t0 : Rat) (response : String) :
    Option Device :=
  none

/-- Embeds one `SmlListEntry` as consumed by `SmlReader.__parse`: a
mapping read with `get('objName', '')`, `get('value', '')`,
`'unit' in sml_entry` and `get('unit')`. -/
structure SmlEntry where
  objName : Option String := none
  value : Option PyVal := none
  unit : Option String := none
deriving DecidableEq, Repr

/-- Embeds the `messageBody` mapping: `get('valList', [])`. -/
structure SmlBody where
  valList : Option (List SmlEntry) := none
deriving DecidableEq, Repr

/-- Embeds one SML message: a mapping tested with
`'messageBody' in sml_mesage`. -/
structure SmlMessage where
  messageBody : Option SmlBody := none
deriving DecidableEq, Repr

/-- Inner loop body of `SmlReader.__parse` (meter_sml.py lines 113-125)
for one `sml_entry`: an entry with a `unit` key appends a `Channel` with
that unit; an entry without one either overwrites `meter_id` (when
`'1-0:0.0.9' in obis_code`) or appends a unit-less `Channel`. -/
def smlEntryStep (s : Sample) (e : SmlEntry) : Sample :=
  let obis_code := e.objName.getD ""
  let value := e.value.getD (.s "")
  match e.unit with
  | some u => { s with channels := s.channels ++ [⟨obis_code, value, some u⟩] }
  | none =>
    if pyIn "1-0:0.0.9" obis_code then
      { s with meter_id := some value }
    else
      { s with channels := s.channels ++ [⟨obis_code, value, none⟩] }

/-- Outer loop body of `SmlReader.__parse` (meter_sml.py lines 107-112)
for one `sml_mesage`: skip messages without `messageBody` or with an
empty `valList`; otherwise lazily create `Sample()` and fold the entry
loop over the list. -/
def smlMsgStep (t0 : Rat) (acc : Option Sample) (m : SmlMessage) : Option Sample :=
  match m.messageBody with
  | none => acc
  | some body =>
    let sml_list := body.valList.getD []
    if sml_list.isEmpty then acc
    else some (sml_list.foldl smlEntryStep (acc.getD (newSample t0)))

/-- Embeds `SmlReader.__parse` (meter_sml.py lines 100-126). -/
def smlParse (t0 : Rat) (sml_frame : List SmlMessage) : Option Sample :=
  sml_frame.foldl (smlMsgStep t0) none

/-- The 8-byte SML start marker `\x1b\x1b\x1b\x1b\x01\x01\x01\x01`. -/
def START_SEQ : List Nat :=
  [0x1b, 0x1b, 0x1b, 0x1b, 0x01, 0x01, 0x01, 0x01]

/-- The 4-byte SML end marker `\x1b\x1b\x1b\x1b`. -/
def END_SEQ : List Nat :=
  [0x1b, 0x1b, 0x1b, 0x1b]

/-- Embeds `SmlReader.__fetch_sample` (meter_sml.py lines 47-83) after
transport I/O succeeded, parameterised by the bytes `read_until` and
`read(4)` returned (`payload`, `trailer`) and by the external TLV
decoder `SmlBase.parse_frame` (`decode`).  The reconstruction is
`START_SEQ + payload + trailer`; the first assertion (`startswith`)
holds by construction; the second requires the slice `[8:-4]` to end
with `END_SEQ`, otherwise the `AssertionError` is caught and logged at
error level and `None` is returned.  A decode result without exactly two
elements falls through to `return None` with no log; `__parse` returning
`None` fails the `isinstance` assertion, again caught and logged. -/
def smlFetch (t0 : Rat) (payload trailer : List Nat)
    (decode : List Nat → List (List SmlMessage)) : Option Sample × List LogEvent :=
  let sml_reconstructed := START_SEQ ++ payload ++ trailer
  if ¬ (START_SEQ.isPrefixOf sml_reconstructed) then
    (none, [smlErrorEvent])
  else if ¬ (END_SEQ.isSuffixOf ((sml_reconstructed.drop 8).take (sml_reconstructed.length - 12))) then
    (none, [smlErrorEvent])
  else
    let frame := decode sml_reconstructed
    if frame.length = 2 then
      match smlParse t0 (frame[1]?.getD []) with
      | some s => (some s, [])
      | none => (none, [smlErrorEvent])
    else
      (none, [])

/-- Embeds `SmlReader.poll` (meter_sml.py lines 34-45): fetch, then the
identity gate. -/
def smlPoll (expected : String) (t0 : Rat) (payload trailer : List Nat)
    (decode : List Nat → List (List SmlMessage)) :
    Except PyErr (Option Sample) × List LogEvent :=
  pollFrom expected (smlFetch t0 payload trailer decode)

/-- Embeds `SmlReader._discover` (meter_sml.py lines 91-98): any fetched
Sample (no identity requirement) is turned into
`Device(sample.meter_id, self.tty_url, self.PROTOCOL, sample.channels)`;
otherwise `None`. -/
def smlDiscover (tty_url : String) (t0 : Rat) (payload trailer : List Nat)
    (decode : List Nat → List (List SmlMessage)) : Option Device × List LogEvent :=
  match smlFetch t0 payload trailer decode with
  | (some s, logs) => (some ⟨s.meter_id, tty_url, "SML", s.channels⟩, logs)
  | (none, logs) => (none, logs)

/-- Embeds `SerialReader._detect_serial_devices` (serial_reader.py lines
66-90), parameterised by the enumerated candidate addresses (the result
of `serial.tools.list_ports.grep`) and by `probe`, where `probe url`
stands for `self.__class__("irrelevant", url, **kwargs)._discover()` —
a freshly constructed reader instance scoped to that single address, so
the probe outcome is a function of the address alone.  A returned Device
is appended; `None` logs at info level and skips the candidate; an
exception is logged at error level and re-raised, aborting the run. -/
def detectSerial (probe : String → Except PyErr (Option Device)) :
    List String → Except PyErr (List Device) × List LogEvent
  | [] => (.ok [], [])
  | url :: rest =>
    match probe url with
    | .error e => (.error e, [uncaughtEvent])
    | .ok (some d) =>
      let (r, logs) := detectSerial probe rest
      (r.map (fun ds => d :: ds), logs)
    | .ok none =>
      let (r, logs) := detectSerial probe rest
      (r, infoEventAt url :: logs)

/-- The Device a successful probe of one candidate contributes, `none`
for a "nothing found" or failed probe. -/
def probeDevice (probe : String → Except PyErr (Option Device)) (url : String) :
    Option Device :=
  match probe url with
  | .ok d? => d?
  | .error _ => none

/-- Whether a probe outcome is a raised exception. -/
def probeRaises (probe : String → Except PyErr (Option Device)) (url : String) : Bool :=
  match probe url with
  | .error _ => true
  | .ok _ => false

/-- Whether a probe outcome is the anticipated "no meter here". -/
def probeNone (probe : String → Except PyErr (Option Device)) (url : String) : Bool :=
  match probe url with
  | .ok none => true
  | _ => false

/-- Identification candidate contributed by one `findall` group of the
text protocol: groups with empty unit and code `9.21`. -/
def plainIdOf (g : String × String × String) : Option PyVal :=
  if g.2.2 = "" ∧ g.1 = "9.21" then some (.s g.2.1) else none

/-- Identification candidate contributed by one SML entry: entries
without a `unit` key whose OBIS code contains `1-0:0.0.9`. -/
def smlIdOf (e : SmlEntry) : Option PyVal :=
  match e.unit with
  | some _ => none
  | none =>
    if pyIn "1-0:0.0.9" (e.objName.getD "") then
      some (e.value.getD (.s ""))
    else
      none

/-- Entries a message contributes to the entry loop. -/
def msgEntries (m : SmlMessage) : List SmlEntry :=
  match m.messageBody with
  | none => []
  | some body => body.valList.getD []

/-- All entries of a frame, in encounter order. -/
def smlAllEntries (sml_frame : List SmlMessage) : List SmlEntry :=
  (sml_frame.map msgEntries).flatten

/-- The `meter_id` carried by an optional Sample (`none` when no Sample
exists yet). -/
def meterOf : Option Sample → Option PyVal
  | none => none
  | some s => s.meter_id

/-- The `time` carried by an optional Sample, defaulting to the
dataclass default `t0` a freshly created Sample would receive. -/
def timeOf (t0 : Rat) : Option Sample → Rat
  | none => t0
  | some s => s.time

/-- Concrete probe fixture used by witnesses: `p1` and `p3` answer with
a Device, `p2` answers "nothing found", `p4` raises. -/
def probeW : String → Except PyErr (Option Device) :=
  fun u =>
    if u = "p1" then .ok (some ⟨some (.s "A"), u, "SML", []⟩)
    else if u = "p2" then .ok none
    else if u = "p4" then .error .typeError
    else .ok (some ⟨some (.s "C"), u, "SML", []⟩)

/-! ## Helper lemmas -/

/-- Reflexivity of `List.isPrefixOf`. -/
theorem isPrefixOf_self {α : Type} [BEq α] [LawfulBEq α] (l : List α) :
    l.isPrefixOf l = true := by
  induction l with
  | nil => rfl
  | cons a t ih => simp [List.isPrefixOf, ih]

/-- A list is a `isPrefixOf`-prefix of itself followed by anything. -/
theorem isPrefixOf_append {α : Type} [BEq α] [LawfulBEq α] (l l' : List α) :
    l.isPrefixOf (l ++ l') = true := by
  induction l with
  | nil => cases l' <;> rfl
  | cons a t ih => simp [List.isPrefixOf, ih]

/-- Every string of characters contains itself. -/
theorem pyInList_self (l : List Char) : pyInList l l = true := by
  cases l with
  | nil => rfl
  | cons c t => simp [pyInList, isPrefixOf_self]

/-- Unfolds `getLast?` of a cons cell. -/
theorem getLast?_cons_getD {α : Type} (v : α) (l : List α) :
    (v :: l).getLast? = some (l.getLast?.getD v) := by
  induction l generalizing v with
  | nil => rfl
  | cons b t ih =>
    rw [List.getLast?_cons_cons, ih b]
    simp

/-- Last-overwrite form of `getLast?` of a cons cell. -/
theorem getLast?_cons_or {α : Type} (v : α) (l : List α) (init : Option α) :
    ((v :: l).getLast?).or init = (l.getLast?).or (some v) := by
  rw [getLast?_cons_getD]
  cases l.getLast? <;> simp

/-- A left fold that overwrites with every `some` candidate computes the
last candidate, with the initial value as fallback. -/
theorem foldl_or_eq {α β : Type} (f : β → Option α) (l : List β) (init : Option α) :
    l.foldl (fun m b => (f b).or m) init = ((l.filterMap f).getLast?).or init := by
  induction l generalizing init with
  | nil => simp
  | cons b t ih =>
    rw [List.foldl_cons, ih, List.filterMap_cons]
    cases hfb : f b with
    | none => simp
    | some v =>
      rw [getLast?_cons_or]
      simp

/-- Length of a `filterMap` as a count. -/
theorem length_filterMap_eq_countP {α β : Type} (f : α → Option β) (l : List α) :
    (l.filterMap f).length = l.countP (fun a => (f a).isSome) := by
  induction l with
  | nil => rfl
  | cons a t ih =>
    rw [List.filterMap_cons, List.countP_cons]
    cases hfa : f a <;> simp [hfa, ih]

/-- One SML entry updates `meter_id` by overwriting it with the entry's
identification candidate, if any. -/
theorem smlEntryStep_meter (s : Sample) (e : SmlEntry) :
    (smlEntryStep s e).meter_id = (smlIdOf e).or s.meter_id := by
  unfold smlEntryStep smlIdOf
  cases e.unit with
  | some u => simp
  | none =>
    dsimp only
    split <;> simp

/-- The entry loop updates `meter_id` by last-overwrite over the
entries' identification candidates. -/
theorem foldl_entryStep_meter (es : List SmlEntry) (s : Sample) :
    (es.foldl smlEntryStep s).meter_id
      = es.foldl (fun m e => (smlIdOf e).or m) s.meter_id := by
  induction es generalizing s with
  | nil => rfl
  | cons e t ih =>
    rw [List.foldl_cons, List.foldl_cons, ih, smlEntryStep_meter]

/-- A lazily created Sample carries the accumulated `meter_id`. -/
theorem getD_newSample_meter (acc : Option Sample) (t0 : Rat) :
    (acc.getD (newSample t0)).meter_id = meterOf acc := by
  cases acc <;> rfl

/-- One SML message updates `meter_id` by last-overwrite over its
entries' identification candidates. -/
theorem smlMsgStep_meter (t0 : Rat) (acc : Option Sample) (m : SmlMessage) :
    meterOf (smlMsgStep t0 acc m)
      = (msgEntries m).foldl (fun m' e => (smlIdOf e).or m') (meterOf acc) := by
  unfold smlMsgStep msgEntries
  cases hb : m.messageBody with
  | none => rfl
  | some body =>
    dsimp only
    cases hv : body.valList.getD [] with
    | nil => simp
    | cons e t =>
      simp only [List.isEmpty_cons, if_false, Bool.false_eq_true]
      rw [meterOf, foldl_entryStep_meter, getD_newSample_meter]

/-- The message loop updates `meter_id` by last-overwrite over all
entries of the frame. -/
theorem sml_foldl_meter (msgs : List SmlMessage) (t0 : Rat) (acc : Option Sample) :
    meterOf (msgs.foldl (smlMsgStep t0) acc)
      = (smlAllEntries msgs).foldl (fun m' e => (smlIdOf e).or m') (meterOf acc) := by
  induction msgs generalizing acc with
  | nil => rfl
  | cons m t ih =>
    rw [List.foldl_cons, ih]
    show _ = ((msgEntries m ++ smlAllEntries t).foldl _ _)
    rw [List.foldl_append, smlMsgStep_meter]

/-- The `meter_id` of a parsed SML Sample is the value of the LAST
identification entry (no `unit` key, OBIS code containing `1-0:0.0.9`)
of the frame, or `none` when there is no such entry. -/
theorem smlParse_meter (t0 : Rat) (frame : List SmlMessage) (s : Sample)
    (h : smlParse t0 frame = some s) :
    s.meter_id = ((smlAllEntries frame).filterMap smlIdOf).getLast? := by
  have h2 := sml_foldl_meter frame t0 none
  rw [show frame.foldl (smlMsgStep t0) none = smlParse t0 frame from rfl, h] at h2
  rw [foldl_or_eq] at h2
  simpa [meterOf] using h2

/-- One SML entry does not change the Sample's `time`. -/
theorem smlEntryStep_time (s : Sample) (e : SmlEntry) :
    (smlEntryStep s e).time = s.time := by
  unfold smlEntryStep
  cases e.unit with
  | some u => simp
  | none =>
    dsimp only
    split <;> simp

/-- The entry loop does not change the Sample's `time`. -/
theorem foldl_entryStep_time (es : List SmlEntry) (s : Sample) :
    (es.foldl smlEntryStep s).time = s.time := by
  induction es generalizing s with
  | nil => rfl
  | cons e t ih => rw [List.foldl_cons, ih, smlEntryStep_time]

/-- A lazily created Sample carries the accumulated `time`. -/
theorem getD_newSample_time (acc : Option Sample) (t0 : Rat) :
    (acc.getD (newSample t0)).time = timeOf t0 acc := by
  cases acc <;> rfl

/-- One SML message does not change the accumulated `time`. -/
theorem smlMsgStep_time (t0 : Rat) (acc : Option Sample) (m : SmlMessage) :
    timeOf t0 (smlMsgStep t0 acc m) = timeOf t0 acc := by
  unfold smlMsgStep
  cases hb : m.messageBody with
  | none => rfl
  | some body =>
    dsimp only
    cases hv : body.valList.getD [] with
    | nil => simp
    | cons e t =>
      simp only [List.isEmpty_cons, if_false, Bool.false_eq_true]
      rw [timeOf, foldl_entryStep_time, getD_newSample_time]

/-- The message loop does not change the accumulated `time`. -/
theorem sml_foldl_time (msgs : List SmlMessage) (t0 : Rat) (acc : Option Sample) :
    timeOf t0 (msgs.foldl (smlMsgStep t0) acc) = timeOf t0 acc := by
  induction msgs generalizing acc with
  | nil => rfl
  | cons m t ih => rw [List.foldl_cons, ih, smlMsgStep_time]

/-- Every Sample produced by the SML parser carries the dataclass
default time `t0`. -/
theorem smlParse_time (t0 : Rat) (frame : List SmlMessage) (s : Sample)
    (h : smlParse t0 frame = some s) : s.time = t0 := by
  have h2 := sml_foldl_time frame t0 none
  rw [show frame.foldl (smlMsgStep t0) none = smlParse t0 frame from rfl, h] at h2
  simpa [timeOf] using h2

/-- The text-protocol group loop updates `meter_id` by last-overwrite
over the groups' identification candidates. -/
theorem plainParseLoop_meter (t0 : Rat) (gs : List (String × String × String))
    (p s : Sample) (h : plainParseLoop t0 (some p) gs = .ok (some s)) :
    s.meter_id = gs.foldl (fun m g => (plainIdOf g).or m) p.meter_id := by
  induction gs generalizing p with
  | nil =>
    simp only [plainParseLoop] at h
    cases h
    rfl
  | cons g t ih =>
    obtain ⟨ident, value, unit⟩ := g
    rw [List.foldl_cons]
    simp only [plainParseLoop, Option.getD_some] at h
    by_cases hc : unit = "" ∧ ident = "9.21"
    · rw [if_pos hc] at h
      have h3 := ih _ h
      rw [h3]
      simp [plainIdOf, hc]
    · rw [if_neg hc] at h
      cases hq : pyFloat? value with
      | none => rw [hq] at h; cases h
      | some q =>
        rw [hq] at h
        have h3 := ih _ h
        rw [h3]
        simp [plainIdOf, hc]

/-- The text-protocol group loop never changes the Sample's `time`. -/
theorem plainParseLoop_time (t0 : Rat) (gs : List (String × String × String))
    (p s : Sample) (h : plainParseLoop t0 (some p) gs = .ok (some s)) :
    s.time = p.time := by
  induction gs generalizing p with
  | nil =>
    simp only [plainParseLoop] at h
    cases h
    rfl
  | cons g t ih =>
    obtain ⟨ident, value, unit⟩ := g
    simp only [plainParseLoop, Option.getD_some] at h
    by_cases hc : unit = "" ∧ ident = "9.21"
    · rw [if_pos hc] at h
      have h3 := ih _ h
      exact h3
    · rw [if_neg hc] at h
      cases hq : pyFloat? value with
      | none => rw [hq] at h; cases h
      | some q =>
        rw [hq] at h
        have h3 := ih _ h
        exact h3

/-- On a nonempty group list the loop behaves identically whether it
starts from `None` or from the fresh `Sample()` it would lazily create. -/
theorem plainParseLoop_none (t0 : Rat) (g : String × String × String)
    (t : List (String × String × String)) :
    plainParseLoop t0 none (g :: t) = plainParseLoop t0 (some (newSample t0)) (g :: t) := by
  obtain ⟨ident, value, unit⟩ := g
  simp only [plainParseLoop, Option.getD_none, Option.getD_some]

/-- The `meter_id` of a parsed text-protocol Sample is the value of the
LAST identification group (empty unit, code `9.21`) of the response, or
`none` when there is no such group. -/
theorem plainParse_meter (t0 : Rat) (response : String) (s : Sample)
    (h : plainParse t0 response = .ok (some s)) :
    s.meter_id = ((findallPlain response).filterMap plainIdOf).getLast? := by
  unfold plainParse at h
  cases hg : findallPlain response with
  | nil => rw [hg] at h; cases h
  | cons g t =>
    rw [hg, plainParseLoop_none] at h
    have h2 := plainParseLoop_meter t0 (g :: t) (newSample t0) s h
    rw [foldl_or_eq] at h2
    simpa [newSample] using h2

/-- Every Sample produced by the text-protocol parser carries the
dataclass default time `t0`. -/
theorem plainParse_time (t0 : Rat) (response : String) (s : Sample)
    (h : plainParse t0 response = .ok (some s)) : s.time = t0 := by
  unfold plainParse at h
  cases hg : findallPlain response with
  | nil => rw [hg] at h; cases h
  | cons g t =>
    rw [hg, plainParseLoop_none] at h
    exact plainParseLoop_time t0 (g :: t) (newSample t0) s h

/-- When no candidate's probe raises, discovery returns precisely the
Devices the individual probes produced, in enumeration order, and logs
one info event per "nothing found" candidate. -/
theorem detectSerial_ok (probe : String → Except PyErr (Option Device))
    (ports : List String) (h : ∀ u ∈ ports, probeRaises probe u = false) :
    detectSerial probe ports
      = (.ok (ports.filterMap (probeDevice probe)),
         (ports.filter (probeNone probe)).map infoEventAt) := by
  induction ports with
  | nil => rfl
  | cons u t ih =>
    have hu : probeRaises probe u = false := h u (List.mem_cons_self u t)
    have ht := ih (fun v hv => h v (List.mem_cons_of_mem u hv))
    cases hpu : probe u with
    | error e => rw [probeRaises, hpu] at hu; cases hu
    | ok d? =>
      cases d? with
      | some d =>
        simp only [detectSerial, hpu, ht]
        simp [List.filterMap_cons, List.filter_cons, probeDevice, probeNone, hpu, Except.map]
      | none =>
        simp only [detectSerial, hpu, ht]
        simp [List.filterMap_cons, List.filter_cons, probeDevice, probeNone, hpu]

/-- When the probe of candidate `u` raises after a run of non-raising
candidates, discovery logs the error event, re-raises the exception, and
never reaches the candidates after `u`. -/
theorem detectSerial_err (probe : String → Except PyErr (Option Device))
    (pre : List String) (u : String) (post : List String) (e : PyErr)
    (hpre : ∀ v ∈ pre, probeRaises probe v = false)
    (hu : probe u = .error e) :
    detectSerial probe (pre ++ u :: post)
      = (.error e, (pre.filter (probeNone probe)).map infoEventAt ++ [uncaughtEvent]) := by
  induction pre with
  | nil => simp [detectSerial, hu]
  | cons v t ih =>
    have hv : probeRaises probe v = false := hpre v (List.mem_cons_self v t)
    have ht := ih (fun w hw => hpre w (List.mem_cons_of_mem v hw))
    cases hpv : probe v with
    | error e2 => rw [probeRaises, hpv] at hv; cases hv
    | ok d? =>
      cases d? with
      | some d =>
        simp only [List.cons_append, detectSerial, hpv, ht]
        simp [List.filter_cons, probeNone, hpv, ht, Except.map]
      | none =>
        simp only [List.cons_append, detectSerial, hpv, ht]
        simp [List.filter_cons, probeNone, hpv, ht]

/-! ## Claim theorems -/

/-- Claim C1, counterexample: both parsers overwrite `meter_id` on every
identification entry, so the candidate accepted is the LAST one, not the
first.  The text response `9.21(11111111)9.21(22222222)` parses to
meter id `22222222`, and an SML frame with two identification entries
(values `11111111` then `22222222`) likewise parses to `22222222`. -/
theorem claim_C1_counterexample :
    plainParse 0 "9.21(11111111)9.21(22222222)"
        = .ok (some ⟨0, some (.s "22222222"), []⟩)
    ∧ smlParse 0
        [⟨some ⟨some [⟨some "1-0:0.0.9*255", some (.s "11111111"), none⟩,
                      ⟨some "1-0:0.0.9*255", some (.s "22222222"), none⟩]⟩⟩]
        = some ⟨0, some (.s "22222222"), []⟩
    ∧ PyVal.s "22222222" ≠ PyVal.s "11111111" :=
  ⟨rfl, rfl, by decide⟩

/-- Claim C1, amended: for every decoded frame or response line, the
candidate meter id accepted by parsing is the value of the LAST
identification entry encountered (no unit, identification code); later
identification candidates replace earlier ones.  This holds for both the
framed (SML) reader's flattening and the text (plain) reader's group
scan. -/
theorem claim_C1_amended_lastWins :
    (∀ (t0 : Rat) (response : String) (s : Sample),
        plainParse t0 response = .ok (some s) →
        s.meter_id = ((findallPlain response).filterMap plainIdOf).getLast?)
    ∧ (∀ (t0 : Rat) (frame : List SmlMessage) (s : Sample),
        smlParse t0 frame = some s →
        s.meter_id = ((smlAllEntries frame).filterMap smlIdOf).getLast?) :=
  ⟨plainParse_meter, smlParse_meter⟩

/-- Witness for C1's amended theorem at concrete inputs. -/
theorem claim_C1_witness :
    ((⟨0, some (.s "22222222"), []⟩ : Sample).meter_id
        = ((findallPlain "9.21(11111111)9.21(22222222)").filterMap plainIdOf).getLast?)
    ∧ ((⟨0, some (.s "33333333"), []⟩ : Sample).meter_id
        = ((smlAllEntries [⟨some ⟨some [⟨some "1-0:0.0.9", some (.s "33333333"), none⟩]⟩⟩]).filterMap
            smlIdOf).getLast?) :=
  ⟨claim_C1_amended_lastWins.1 0 "9.21(11111111)9.21(22222222)"
      ⟨0, some (.s "22222222"), []⟩ rfl,
   claim_C1_amended_lastWins.2 0
      [⟨some ⟨some [⟨some "1-0:0.0.9", some (.s "33333333"), none⟩]⟩⟩]
      ⟨0, some (.s "33333333"), []⟩ rfl⟩

/-- Claim C2: the text-protocol reader configured with expected id
`99999999`, polled with response line `6.8(0006047*kWh)9.21(99999999)`,
yields a Sample with exactly one Channel `("6.8", 6047.0, "kWh")` and
meter id `99999999` (for every value of the dataclass default time). -/
theorem claim_C2_text_roundtrip (t0 : Rat) :
    plainPoll "99999999" t0 "6.8(0006047*kWh)9.21(99999999)"
      = (.ok (some ⟨t0, some (.s "99999999"), [⟨"6.8", .f 6047, some "kWh"⟩]⟩),
         [plainDebugEvent]) :=
  rfl

/-- Claim C4: identity matching is reflexive after canonicalization
(`strip`), and is substring containment: `EMH00` matches
`1 EMH00 4921570` while `EMH99` does not. -/
theorem claim_C4_identity_matching :
    (∀ x : String, idMatch x x = true)
    ∧ idMatch "EMH00" "1 EMH00 4921570" = true
    ∧ idMatch "EMH99" "1 EMH00 4921570" = false := by
  refine ⟨fun x => ?_, by decide, by decide⟩
  unfold idMatch pyIn
  exact pyInList_self _

/-- Claim C9: the `time` field default of `Sample` is evaluated once at
class-definition time, so construction ignores the current clock, and
any two Samples produced by parsing (in either reader) within one
program run carry the same `time` value. -/
theorem claim_C9_shared_default_time :
    (∀ (t0 now1 now2 : Rat),
        sampleDefault t0 now1 = sampleDefault t0 now2
        ∧ (sampleDefault t0 now1).time = t0)
    ∧ (∀ (t0 : Rat) (r1 r2 : String) (s1 s2 : Sample),
        plainParse t0 r1 = .ok (some s1) → plainParse t0 r2 = .ok (some s2) →
        s1.time = s2.time)
    ∧ (∀ (t0 : Rat) (f1 f2 : List SmlMessage) (s1 s2 : Sample),
        smlParse t0 f1 = some s1 → smlParse t0 f2 = some s2 →
        s1.time = s2.time) := by
  refine ⟨fun t0 n1 n2 => ⟨rfl, rfl⟩, ?_, ?_⟩
  · intro t0 r1 r2 s1 s2 h1 h2
    rw [plainParse_time t0 r1 s1 h1, plainParse_time t0 r2 s2 h2]
  · intro t0 f1 f2 s1 s2 h1 h2
    rw [smlParse_time t0 f1 s1 h1, smlParse_time t0 f2 s2 h2]

/-- Witness for C9 at concrete inputs: two different responses parsed in
two separate poll attempts yield equal `time` fields. -/
theorem claim_C9_witness :
    ((⟨0, some (.s "77"), []⟩ : Sample).time = (⟨0, some (.s "88"), []⟩ : Sample).time)
    ∧ ((⟨0, some (.s "55"), []⟩ : Sample).time = (⟨0, some (.s "66"), []⟩ : Sample).time) :=
  ⟨claim_C9_shared_default_time.2.1 0 "9.21(77)" "9.21(88)"
      ⟨0, some (.s "77"), []⟩ ⟨0, some (.s "88"), []⟩ rfl rfl,
   claim_C9_shared_default_time.2.2 0
      [⟨some ⟨some [⟨some "1-0:0.0.9", some (.s "55"), none⟩]⟩⟩]
      [⟨some ⟨some [⟨some "1-0:0.0.9", some (.s "66"), none⟩]⟩⟩]
      ⟨0, some (.s "55"), []⟩ ⟨0, some (.s "66"), []⟩ rfl rfl⟩

/-- Claim C3: when a fetched Sample's parsed meter id (a string) fails
identity matching against the configured expected id, `poll()` returns
`None` (it neither raises nor returns the Sample) and logs a warning —
shown for the shared gate, for the SML reader's poll and for the text
reader's poll. -/
theorem claim_C3_mismatch_returns_none :
    (∀ (expected : String) (s : Sample) (mid : String),
        s.meter_id = some (.s mid) → idMatch expected mid = false →
        pollGate expected (some s) = (.ok none, [warnMismatchEvent]))
    ∧ (∀ (expected : String) (t0 : Rat) (payload trailer : List Nat)
        (decode : List Nat → List (List SmlMessage)) (s : Sample)
        (logs : List LogEvent) (mid : String),
        smlFetch t0 payload trailer decode = (some s, logs) →
        s.meter_id = some (.s mid) → idMatch expected mid = false →
        smlPoll expected t0 payload trailer decode
          = (.ok none, logs ++ [warnMismatchEvent]))
    ∧ (∀ (expected : String) (t0 : Rat) (response : String) (s : Sample)
        (mid : String),
        plainParse t0 response = .ok (some s) →
        s.meter_id = some (.s mid) → idMatch expected mid = false →
        plainPoll expected t0 response
          = (.ok none, [plainDebugEvent, warnMismatchEvent])) := by
  refine ⟨?_, ?_, ?_⟩
  · intro expected s mid hm hmatch
    simp [pollGate, hm, hmatch]
  · intro expected t0 payload trailer decode s logs mid hf hm hmatch
    unfold smlPoll pollFrom
    rw [hf]
    simp [pollGate, hm, hmatch]
  · intro expected t0 response s mid hp hm hmatch
    unfold plainPoll plainFetch
    rw [hp]
    simp [pollGate, hm, hmatch]

/-- Witness for C3 at concrete inputs for all three conjuncts. -/
theorem claim_C3_witness :
    pollGate "B" (some ⟨0, some (.s "A"), []⟩) = (.ok none, [warnMismatchEvent])
    ∧ smlPoll "B" 0 END_SEQ [0, 0, 0, 0]
        (fun _ => [[], [⟨some ⟨some [⟨some "1-0:0.0.9", some (.s "A"), none⟩]⟩⟩]])
        = (.ok none, [] ++ [warnMismatchEvent])
    ∧ plainPoll "B" 0 "9.21(42)" = (.ok none, [plainDebugEvent, warnMismatchEvent]) :=
  ⟨claim_C3_mismatch_returns_none.1 "B" ⟨0, some (.s "A"), []⟩ "A" rfl (by decide),
   claim_C3_mismatch_returns_none.2.1 "B" 0 END_SEQ [0, 0, 0, 0]
      (fun _ => [[], [⟨some ⟨some [⟨some "1-0:0.0.9", some (.s "A"), none⟩]⟩⟩]])
      ⟨0, some (.s "A"), []⟩ [] "A" rfl rfl (by decide),
   claim_C3_mismatch_returns_none.2.2 "B" 0 "9.21(42)"
      ⟨0, some (.s "42"), []⟩ "42" rfl rfl (by decide)⟩

/-- Claim C5: whenever the reconstructed candidate frame, excluding its
first 8 and last 4 bytes, does not end with the 4-byte end marker, the
SML `poll()` returns `None` with the validation failure logged at error
level — for every payload, trailer, decoder and expected id, so the
fault never propagates to the caller. -/
theorem claim_C5_malformed_frame :
    ∀ (expected : String) (t0 : Rat) (payload trailer : List Nat)
      (decode : List Nat → List (List SmlMessage)),
      END_SEQ.isSuffixOf (((START_SEQ ++ payload ++ trailer).drop 8).take
          ((START_SEQ ++ payload ++ trailer).length - 12)) = false →
      smlPoll expected t0 payload trailer decode = (.ok none, [smlErrorEvent]) := by
  intro expected t0 payload trailer decode h
  have hstart : START_SEQ.isPrefixOf (START_SEQ ++ payload ++ trailer) = true := by
    rw [List.append_assoc]
    exact isPrefixOf_append _ _
  have hfetch : smlFetch t0 payload trailer decode = (none, [smlErrorEvent]) := by
    unfold smlFetch
    rw [if_neg (by simp only [hstart]; simp), if_pos (by simp only [h]; simp)]
  unfold smlPoll pollFrom
  rw [hfetch]
  simp [pollGate]

/-- Witness for C5: a stream whose payload lacks the end marker. -/
theorem claim_C5_witness :
    END_SEQ.isSuffixOf (((START_SEQ ++ [0, 0, 0, 0] ++ [0, 0, 0, 0]).drop 8).take
        ((START_SEQ ++ [0, 0, 0, 0] ++ [0, 0, 0, 0]).length - 12)) = false
    ∧ smlPoll "X" 0 [0, 0, 0, 0] [0, 0, 0, 0] (fun _ => [])
        = (.ok none, [smlErrorEvent]) :=
  ⟨by decide, claim_C5_malformed_frame "X" 0 [0, 0, 0, 0] [0, 0, 0, 0]
      (fun _ => []) (by decide)⟩

/-- Claim C10: a frame or response with entries but no
identification-register entry parses to a Sample with `meter_id = None`
(both readers), and the identity gate then applies `strip` to `None`,
raising an uncaught `TypeError` instead of returning `None` — the
no-identification case at the poll boundary is not total. -/
theorem claim_C10_none_id_typeerror :
    (∀ (t0 : Rat) (frame : List SmlMessage) (s : Sample),
        ((smlAllEntries frame).all fun e => (smlIdOf e).isNone) →
        smlParse t0 frame = some s → s.meter_id = none)
    ∧ (∀ (t0 : Rat) (response : String) (s : Sample),
        ((findallPlain response).all fun g => (plainIdOf g).isNone) →
        plainParse t0 response = .ok (some s) → s.meter_id = none)
    ∧ (∀ (expected : String) (s : Sample),
        s.meter_id = none → pollGate expected (some s) = (.error .typeError, []))
    ∧ (∀ (expected : String) (s : Sample) (logs : List LogEvent),
        s.meter_id = none →
        pollFrom expected (some s, logs) = (.error .typeError, logs))
    ∧ (∀ (expected : String) (t0 : Rat) (response : String) (s : Sample),
        plainParse t0 response = .ok (some s) → s.meter_id = none →
        plainPoll expected t0 response = (.error .typeError, [plainDebugEvent])) := by
  refine ⟨?_, ?_, ?_, ?_, ?_⟩
  · intro t0 frame s hall hp
    rw [smlParse_meter t0 frame s hp]
    rw [List.filterMap_eq_nil_iff.mpr]
    · rfl
    · intro e he
      exact Option.isNone_iff_eq_none.mp (List.all_eq_true.mp hall e he)
  · intro t0 response s hall hp
    rw [plainParse_meter t0 response s hp]
    rw [List.filterMap_eq_nil_iff.mpr]
    · rfl
    · intro g hg
      exact Option.isNone_iff_eq_none.mp (List.all_eq_true.mp hall g hg)
  · intro expected s hm
    simp [pollGate, hm]
  · intro expected s logs hm
    unfold pollFrom
    simp [pollGate, hm]
  · intro expected t0 response s hp hm
    unfold plainPoll plainFetch
    rw [hp]
    simp [pollGate, hm]

/-- Witness for C10 at concrete inputs for all five conjuncts. -/
theorem claim_C10_witness :
    (⟨0, none, [⟨"1-0:1.8.0", .i 5, some "Wh"⟩]⟩ : Sample).meter_id = none
    ∧ (⟨0, none, [⟨"6.8", .f 5, some "kWh"⟩]⟩ : Sample).meter_id = none
    ∧ pollGate "X" (some ⟨0, none, []⟩) = (.error .typeError, [])
    ∧ pollFrom "X" (some ⟨0, none, []⟩, [smlErrorEvent]) = (.error .typeError, [smlErrorEvent])
    ∧ plainPoll "X" 0 "6.8(5*kWh)" = (.error .typeError, [plainDebugEvent]) :=
  ⟨claim_C10_none_id_typeerror.1 0
      [⟨some ⟨some [⟨some "1-0:1.8.0", some (.i 5), some "Wh"⟩]⟩⟩]
      ⟨0, none, [⟨"1-0:1.8.0", .i 5, some "Wh"⟩]⟩ (by decide) rfl,
   claim_C10_none_id_typeerror.2.1 0 "6.8(5*kWh)"
      ⟨0, none, [⟨"6.8", .f 5, some "kWh"⟩]⟩ (by decide) rfl,
   claim_C10_none_id_typeerror.2.2.1 "X" ⟨0, none, []⟩ rfl,
   claim_C10_none_id_typeerror.2.2.2.1 "X" ⟨0, none, []⟩ [smlErrorEvent] rfl,
   claim_C10_none_id_typeerror.2.2.2.2 "X" 0 "6.8(5*kWh)"
      ⟨0, none, [⟨"6.8", .f 5, some "kWh"⟩]⟩ rfl rfl⟩

/-- Claim C8 (code bug): `PlainReader._discover` is the single statement
`pass`, so the text reader's per-instance discovery returns `None` for
every configuration and every response — even when its fetch routine
parses a Sample carrying an identification value, as the second conjunct
shows for the round-trip response line.  It does not mirror the SML
reader's discovery, contradicting the repository's own
`test_meter_plain.test_detect` expectation that detection finds a
Device. -/
theorem claim_C8_plain_discover_stub :
    (∀ (expected tty_url : String) (t0 : Rat) (response : String),
        plainDiscover expected tty_url t0 response = none)
    ∧ (plainFetch 0 "6.8(0006047*kWh)9.21(99999999)").1
        = .ok (some ⟨0, some (.s "99999999"), [⟨"6.8", .f 6047, some "kWh"⟩]⟩)
    ∧ plainDiscover "99999999" "/dev/ttyUSB0" 0 "6.8(0006047*kWh)9.21(99999999)" = none :=
  ⟨fun _ _ _ _ => rfl, rfl, rfl⟩

/-- Claim C6: when no candidate's probe raises, discovery over the
enumerated addresses returns exactly the Devices of the successful
probes, in enumeration order, and their number is the count of
successful candidates; each candidate's contribution is
`probeDevice probe u`, a function of that single address alone (the
fresh-instance probe), so no state leaks between candidates. -/
theorem claim_C6_discovery_exact :
    ∀ (probe : String → Except PyErr (Option Device)) (ports : List String),
      (∀ u ∈ ports, probeRaises probe u = false) →
      (detectSerial probe ports).1 = .ok (ports.filterMap (probeDevice probe))
      ∧ (ports.filterMap (probeDevice probe)).length
          = ports.countP (fun u => (probeDevice probe u).isSome) := by
  intro probe ports h
  refine ⟨?_, length_filterMap_eq_countP _ _⟩
  rw [detectSerial_ok probe ports h]

/-- Witness for C6: three candidates of which two respond. -/
theorem claim_C6_witness :
    (detectSerial probeW ["p1", "p2", "p3"]).1
        = .ok (["p1", "p2", "p3"].filterMap (probeDevice probeW))
    ∧ (["p1", "p2", "p3"].filterMap (probeDevice probeW)).length
        = ["p1", "p2", "p3"].countP (fun u => (probeDevice probeW u).isSome) :=
  claim_C6_discovery_exact probeW ["p1", "p2", "p3"] (by decide)

/-- Claim C7: per candidate, a returned Device is appended to the result
list and a `None` outcome logs one info event and is skipped (first
conjunct: with no raising probe the result is the ordered list of found
Devices with one info log per skipped candidate); an exception escaping
one candidate's probe is logged at error level and re-raised, aborting
the run before later candidates (second conjunct). -/
theorem claim_C7_per_candidate :
    (∀ (probe : String → Except PyErr (Option Device)) (ports : List String),
        (∀ u ∈ ports, probeRaises probe u = false) →
        detectSerial probe ports
          = (.ok (ports.filterMap (probeDevice probe)),
             (ports.filter (probeNone probe)).map infoEventAt))
    ∧ (∀ (probe : String → Except PyErr (Option Device)) (pre : List String)
        (u : String) (post : List String) (e : PyErr),
        (∀ v ∈ pre, probeRaises probe v = false) → probe u = .error e →
        detectSerial probe (pre ++ u :: post)
          = (.error e,
             (pre.filter (probeNone probe)).map infoEventAt ++ [uncaughtEvent])) :=
  ⟨detectSerial_ok, detectSerial_err⟩

/-- Witness for C7: a clean run over three candidates, and a run aborted
by a raising probe at the third of four candidates. -/
theorem claim_C7_witness :
    detectSerial probeW ["p1", "p2", "p3"]
        = (.ok (["p1", "p2", "p3"].filterMap (probeDevice probeW)),
           (["p1", "p2", "p3"].filter (probeNone probeW)).map infoEventAt)
    ∧ detectSerial probeW (["p1", "p2"] ++ "p4" :: ["p3"])
        = (.error .typeError,
           (["p1", "p2"].filter (probeNone probeW)).map infoEventAt ++ [uncaughtEvent]) :=
  ⟨claim_C7_per_candidate.1 probeW ["p1", "p2", "p3"] (by decide),
   claim_C7_per_candidate.2 probeW ["p1", "p2"] "p4" ["p3"] .typeError (by decide) rfl⟩

end PyMeterReader
